import Mathlib

/-!
Shallow embedding of the trip-phase / location-reporting core of the
`driver_mobile` repository.

The embedding covers:
* the `trips` record fields consumed and mutated by the driver app
  (`TripDetailsScreen` in `src/unnamed/part_003`);
* the phase-transition operations `acceptTrip`, `startTrip`,
  `arrivedAtPickup`, `startRide`, `completeTrip` together with the UI
  gating predicates `canAccept`, `canStart` and the per-phase action
  buttons;
* the realtime subscription handler that folds inbound `UPDATE` payloads
  into local state;
* the GPS tracking hook `useGPSTracking` (both versions present in
  `src/src/hooks/useGPSTracking.js`) and the location-row insert;
* the disclosure-gated background-permission logic.

JavaScript-specific semantics (truthiness of strings and numbers, the
difference between `||` and `??`, object spread as shallow merge) are
modelled explicitly, since several claims hinge on them.
-/

namespace DriverMobile

/-- JS truthiness of a nullable string column: `null`/absent and the empty
string are falsy, everything else truthy. -/
def truthy : Option String → Bool
  | none => false
  | some s => !(s == "")

/-- One row of the external `trips` relation, restricted to the fields the
driver app's trip-phase core reads or writes.  Nullable columns are
`Option`; timestamps are abstract instants (`Nat`). -/
structure Trip where
  status : String
  driver_id : Option String
  assigned_driver_id : Option String
  driver_acceptance_status : Option String
  trip_phase : Option String
  pickup_arrival_time : Option Nat
  ride_start_time : Option Nat
  completed_at : Option Nat
  updated_at : Nat
  deriving DecidableEq, Repr

/-- A partial new-record snapshot as carried by a realtime `UPDATE` event
(`payload.new`).  An outer `none` means the field is absent from the
snapshot; `some v` means the snapshot carries the (possibly null) value
`v`.  Spreading such a snapshot over the previous record keeps absent
fields and overwrites present ones. -/
structure TripPatch where
  status : Option String := none
  driver_id : Option (Option String) := none
  assigned_driver_id : Option (Option String) := none
  driver_acceptance_status : Option (Option String) := none
  trip_phase : Option (Option String) := none
  pickup_arrival_time : Option (Option Nat) := none
  ride_start_time : Option (Option Nat) := none
  completed_at : Option (Option Nat) := none
  updated_at : Option Nat := none
  deriving DecidableEq, Repr

/-- `setTrip(prev => ({ ...prev, ...payload.new }))`: shallow merge of an
inbound snapshot into the previous local record. -/
def mergeTrip (prev : Trip) (p : TripPatch) : Trip where
  status := p.status.getD prev.status
  driver_id := p.driver_id.getD prev.driver_id
  assigned_driver_id := p.assigned_driver_id.getD prev.assigned_driver_id
  driver_acceptance_status := p.driver_acceptance_status.getD prev.driver_acceptance_status
  trip_phase := p.trip_phase.getD prev.trip_phase
  pickup_arrival_time := p.pickup_arrival_time.getD prev.pickup_arrival_time
  ride_start_time := p.ride_start_time.getD prev.ride_start_time
  completed_at := p.completed_at.getD prev.completed_at
  updated_at := p.updated_at.getD prev.updated_at

/-- The realtime subscription handler of the current `TripDetailsScreen`
(`part_003` lines 132-138): merge the snapshot into the trip record and,
when `payload.new.trip_phase` is truthy, adopt it as the local phase. -/
def handleUpdate (prev : Trip) (prevPhase : String) (p : TripPatch) : Trip × String :=
  (mergeTrip prev p,
    match p.trip_phase with
    | some (some s) => if s == "" then prevPhase else s
    | _ => prevPhase)

/-- Modelled from the spec (RealtimeSync contract, §4.4): the locally
tracked `trip_phase` is taken from the event exactly when the event's
`trip_phase` is present and non-null; otherwise the previous phase is
kept.  Used only to compare the spec's fold against the source's. -/
def specPhaseFold (prevPhase : String) (p : TripPatch) : String :=
  match p.trip_phase with
  | some (some s) => s
  | _ => prevPhase

/-- The five documented trip phases, in their fixed forward ordering;
any other string (the column is loosely typed) ranks 0. -/
def phaseRank (s : String) : Nat :=
  if s = "waiting" then 0
  else if s = "en_route_to_pickup" then 1
  else if s = "arrived_at_pickup" then 2
  else if s = "en_route_to_destination" then 3
  else if s = "completed" then 4
  else 0

/-- Membership in the documented phase enumeration. -/
def knownPhase (s : String) : Bool :=
  s == "waiting" || s == "en_route_to_pickup" || s == "arrived_at_pickup" ||
  s == "en_route_to_destination" || s == "completed"

/-- `canAccept` (`part_003` lines 465-468): the Accept button is shown to
the assigned driver while `driver_id` is unset and
`driver_acceptance_status` is `assigned_waiting` or unset. -/
def canAccept (t : Trip) (userId : String) : Bool :=
  t.assigned_driver_id == some userId &&
  !truthy t.driver_id &&
  (t.driver_acceptance_status == some "assigned_waiting" ||
    !truthy t.driver_acceptance_status)

/-- `canStart` (`part_003` lines 469-472). -/
def canStart (t : Trip) (userId : String) : Bool :=
  t.driver_id == some userId &&
  (t.driver_acceptance_status == some "accepted" ||
    (!truthy t.driver_acceptance_status && t.status == "upcoming")) &&
  !(t.status == "in_progress")

/-- `isInProgress` / `isTracking` predicate (`part_003` lines 80 and 473):
the trip is active for the current driver. -/
def isInProgress (t : Trip) (userId : String) : Bool :=
  t.status == "in_progress" && t.driver_id == some userId

/-- Phase initialisation inside `fetchTripDetails` (`part_003` lines
160-165): adopt a truthy `trip_phase` column; otherwise default to
`en_route_to_pickup` for an in-progress trip and keep the previous local
phase (initially `waiting`) for anything else. -/
def fetchPhaseInit (prevPhase : String) (t : Trip) : String :=
  match t.trip_phase with
  | some s =>
    if s == "" then
      if t.status == "in_progress" then "en_route_to_pickup" else prevPhase
    else s
  | none =>
    if t.status == "in_progress" then "en_route_to_pickup" else prevPhase

/-- Initial value of the `tripPhase` component state (`part_003` line 69). -/
def initialTripPhase : String := "waiting"

/-- Outcome of the single awaited external `update` call inside a
phase-transition handler. -/
inductive WriteResult where
  | ok
  | err (msg : String)
  deriving DecidableEq, Repr

/-- Observable outcome of one phase-transition handler invocation: the
external trip record afterwards, the local `tripPhase` state afterwards,
the dispatcher notifications fired (`notifyDispatcher` actions), the
error surfaced to the user (`Alert.alert('Error', ...)`), and how many
external writes were attempted. -/
structure OpResult where
  trip : Trip
  localPhase : String
  notifications : List String
  errorAlert : Option String
  writeAttempts : Nat
  deriving DecidableEq, Repr

/-- `acceptTrip` (`part_003` lines 253-279): one update write; on success
re-fetch (which re-runs the phase initialisation) and notify the
dispatcher once; on failure surface the message and change nothing. -/
def acceptTrip (t : Trip) (phase userId : String) (now : Nat) (w : WriteResult) : OpResult :=
  match w with
  | .ok =>
    let t' := { t with
      driver_id := some userId
      driver_acceptance_status := some "accepted"
      updated_at := now }
    { trip := t'
      localPhase := fetchPhaseInit phase t'
      notifications := ["driver_accepted"]
      errorAlert := none
      writeAttempts := 1 }
  | .err m =>
    { trip := t, localPhase := phase, notifications := [], errorAlert := some m,
      writeAttempts := 1 }

/-- `startTrip` (`part_003` lines 281-309). -/
def startTrip (t : Trip) (phase userId : String) (now : Nat) (w : WriteResult) : OpResult :=
  match w with
  | .ok =>
    let t' := { t with
      status := "in_progress"
      driver_acceptance_status := some "started"
      trip_phase := some "en_route_to_pickup"
      updated_at := now }
    { trip := t'
      localPhase := fetchPhaseInit "en_route_to_pickup" t'
      notifications := ["trip_started"]
      errorAlert := none
      writeAttempts := 1 }
  | .err m =>
    { trip := t, localPhase := phase, notifications := [], errorAlert := some m,
      writeAttempts := 1 }

/-- `arrivedAtPickup` (`part_003` lines 311-337). -/
def arrivedAtPickup (t : Trip) (phase userId : String) (now : Nat) (w : WriteResult) : OpResult :=
  match w with
  | .ok =>
    let t' := { t with
      trip_phase := some "arrived_at_pickup"
      pickup_arrival_time := some now
      updated_at := now }
    { trip := t'
      localPhase := "arrived_at_pickup"
      notifications := ["arrived_at_pickup"]
      errorAlert := none
      writeAttempts := 1 }
  | .err m =>
    { trip := t, localPhase := phase, notifications := [], errorAlert := some m,
      writeAttempts := 1 }

/-- `startRide` (`part_003` lines 339-365). -/
def startRide (t : Trip) (phase userId : String) (now : Nat) (w : WriteResult) : OpResult :=
  match w with
  | .ok =>
    let t' := { t with
      trip_phase := some "en_route_to_destination"
      ride_start_time := some now
      updated_at := now }
    { trip := t'
      localPhase := "en_route_to_destination"
      notifications := ["ride_started"]
      errorAlert := none
      writeAttempts := 1 }
  | .err m =>
    { trip := t, localPhase := phase, notifications := [], errorAlert := some m,
      writeAttempts := 1 }

/-- `completeTrip` (`part_003` lines 367-396): terminal write; the screen
navigates back, so the local phase state is left as-is. -/
def completeTrip (t : Trip) (phase userId : String) (now : Nat) (w : WriteResult) : OpResult :=
  match w with
  | .ok =>
    let t' := { t with
      status := "completed"
      driver_acceptance_status := some "completed"
      trip_phase := some "completed"
      completed_at := some now
      updated_at := now }
    { trip := t'
      localPhase := phase
      notifications := ["trip_completed"]
      errorAlert := none
      writeAttempts := 1 }
  | .err m =>
    { trip := t, localPhase := phase, notifications := [], errorAlert := some m,
      writeAttempts := 1 }

/-- The five phase-transition handlers, named. -/
inductive OpKind where
  | accept
  | start
  | arrived
  | rideStart
  | complete
  deriving DecidableEq, Repr

/-- Dispatch a phase-transition handler by name. -/
def runOp (k : OpKind) (t : Trip) (phase userId : String) (now : Nat) (w : WriteResult) :
    OpResult :=
  match k with
  | .accept => acceptTrip t phase userId now w
  | .start => startTrip t phase userId now w
  | .arrived => arrivedAtPickup t phase userId now w
  | .rideStart => startRide t phase userId now w
  | .complete => completeTrip t phase userId now w

/-- Local state of `TripDetailsScreen` relevant to the phase machine: the
trip record as seen locally and the `tripPhase` component state. -/
structure ScreenState where
  trip : Trip
  tripPhase : String
  deriving DecidableEq, Repr

/-- One driver action on the screen: each carries the wall-clock instant
the handler reads and the outcome of its external write. -/
inductive CtrlStep where
  | accept (now : Nat) (w : WriteResult)
  | start (now : Nat) (w : WriteResult)
  | arrived (now : Nat) (w : WriteResult)
  | rideStart (now : Nat) (w : WriteResult)
  | complete (now : Nat) (w : WriteResult)
  deriving DecidableEq, Repr

/-- UI gating of each action: `acceptTrip`/`startTrip` are reachable only
behind `canAccept`/`canStart` (`part_003` lines 863-895), and the three
in-ride buttons render only in the `isInProgress` view for the matching
local phase (`part_003` lines 679-728). -/
def ctrlGuard (userId : String) (s : ScreenState) : CtrlStep → Bool
  | .accept _ _ => canAccept s.trip userId
  | .start _ _ => canStart s.trip userId
  | .arrived _ _ => isInProgress s.trip userId && s.tripPhase == "en_route_to_pickup"
  | .rideStart _ _ => isInProgress s.trip userId && s.tripPhase == "arrived_at_pickup"
  | .complete _ _ => isInProgress s.trip userId && s.tripPhase == "en_route_to_destination"

/-- Effect of an (enabled) action on the screen state. -/
def ctrlApply (userId : String) (s : ScreenState) : CtrlStep → ScreenState
  | .accept now w =>
    let r := acceptTrip s.trip s.tripPhase userId now w
    ⟨r.trip, r.localPhase⟩
  | .start now w =>
    let r := startTrip s.trip s.tripPhase userId now w
    ⟨r.trip, r.localPhase⟩
  | .arrived now w =>
    let r := arrivedAtPickup s.trip s.tripPhase userId now w
    ⟨r.trip, r.localPhase⟩
  | .rideStart now w =>
    let r := startRide s.trip s.tripPhase userId now w
    ⟨r.trip, r.localPhase⟩
  | .complete now w =>
    let r := completeTrip s.trip s.tripPhase userId now w
    ⟨r.trip, r.localPhase⟩

/-- Run a sequence of driver actions; an action whose button is not
rendered (guard false) is a no-op. -/
def ctrlRun (userId : String) (s : ScreenState) : List CtrlStep → ScreenState
  | [] => s
  | c :: cs => ctrlRun userId (if ctrlGuard userId s c then ctrlApply userId s c else s) cs

/-- A step of the combined system named by claim C1: either a gated
controller action or a RealtimeSync-applied update event. -/
inductive TripStep where
  | ctrl (c : CtrlStep)
  | sync (p : TripPatch)
  deriving DecidableEq, Repr

/-- Run of the combined system: controller actions as in `ctrlRun`,
subscription events folded through `handleUpdate`. -/
def tripRun (userId : String) (s : ScreenState) : List TripStep → ScreenState
  | [] => s
  | .ctrl c :: rest =>
    tripRun userId (if ctrlGuard userId s c then ctrlApply userId s c else s) rest
  | .sync p :: rest =>
    let m := handleUpdate s.trip s.tripPhase p
    tripRun userId ⟨m.1, m.2⟩ rest

/-- Well-formedness of the screen state, satisfied by every state the
screen actually reaches (local phase is one of the five documented
phases; the store's `trip_phase` column, when set, is empty or a
documented phase; and the record's lifecycle fields are consistent with
any locally reached phase). -/
def Inv (t : Trip) (ph : String) : Prop :=
  knownPhase ph = true ∧
  (∀ tp, t.trip_phase = some tp → tp = "" ∨ knownPhase tp = true) ∧
  (∀ tp, t.trip_phase = some tp → tp ≠ "" → 1 ≤ phaseRank tp →
    t.status = "in_progress" ∨ t.driver_acceptance_status = some "completed") ∧
  (1 ≤ phaseRank ph →
    t.trip_phase = some ph ∨
    (truthy t.trip_phase = false ∧ t.status = "in_progress" ∧ phaseRank ph = 1) ∨
    t.driver_acceptance_status = some "completed") ∧
  (2 ≤ phaseRank ph →
    truthy t.driver_id = true ∧
    (t.status = "in_progress" ∨ t.driver_acceptance_status = some "completed"))

instance (t : Trip) (ph : String) : Decidable (Inv t ph) := by
  unfold Inv
  have : ∀ (p : Option String) (q : String → Prop) [DecidablePred q],
      Decidable (∀ tp, p = some tp → q tp) := by
    intro p q hq
    cases p with
    | none => exact .isTrue (by simp)
    | some s => exact decidable_of_iff (q s) (by simp)
  infer_instance

/-! ### GPS tracking hook and location reporter -/

/-- A device position sample delivered by the geolocation provider
(`expo-location`).  `heading`/`speed` are nullable; coordinate values are
modelled as rationals (the claims about them are pass-through, not
arithmetic). -/
structure Coords where
  latitude : ℚ
  longitude : ℚ
  heading : Option ℚ
  speed : Option ℚ
  deriving DecidableEq, Repr

/-- The location object handed to the watch callback: coordinates plus the
fix timestamp. -/
structure LocationSample where
  coords : Coords
  timestamp : Nat
  deriving DecidableEq, Repr

/-- One row inserted into the external `driver_location` relation. -/
structure LocationRow where
  trip_id : String
  driver_id : String
  latitude : ℚ
  longitude : ℚ
  heading : Option ℚ
  speed : Option ℚ
  timestamp : Nat
  deriving DecidableEq, Repr

/-- JS `x || null` on a nullable number: every falsy value — `null` and
`0` alike — is coerced to `null`. -/
def jsOrNull (x : Option ℚ) : Option ℚ :=
  match x with
  | none => none
  | some q => if q = 0 then none else some q

/-- `sendLocationUpdate`, first hook version (`useGPSTracking.js` lines
96-114): heading and speed are written through `|| null`. -/
def sendLocationUpdateV1 (tripId driverId : String) (loc : LocationSample) : LocationRow where
  trip_id := tripId
  driver_id := driverId
  latitude := loc.coords.latitude
  longitude := loc.coords.longitude
  heading := jsOrNull loc.coords.heading
  speed := jsOrNull loc.coords.speed
  timestamp := loc.timestamp

/-- `sendLocationUpdate`, second hook version (`useGPSTracking.js` lines
370-397): heading and speed are written through `?? null`, which keeps a
provided `0`. -/
def sendLocationUpdateV2 (tripId driverId : String) (loc : LocationSample) : LocationRow where
  trip_id := tripId
  driver_id := driverId
  latitude := loc.coords.latitude
  longitude := loc.coords.longitude
  heading := loc.coords.heading
  speed := loc.coords.speed
  timestamp := loc.timestamp

/-- An event observed by the mounted screen while the reporter is
enabled: either a trip `UPDATE` from the subscription (with the instant
it is processed) or a location fix from the watcher. -/
inductive ReporterEv where
  | tripUpdate (p : TripPatch) (time : Nat)
  | locationFix (loc : LocationSample)
  deriving DecidableEq, Repr

/-- The trip record after folding the subscription updates of a trace. -/
def tripAfter (t : Trip) : List ReporterEv → Trip
  | [] => t
  | .tripUpdate p _ :: evs => tripAfter (mergeTrip t p) evs
  | .locationFix _ :: evs => tripAfter t evs

/-- Rows the reporter persists along a trace: each location fix is written
through `sendLocationUpdateV2` exactly when the enablement predicate
`isInProgress` (the screen's `isTracking`) holds for the trip record as
currently seen; each trip update re-evaluates that predicate (one
evaluation cycle). -/
def reporterRun (userId tripId : String) (t : Trip) : List ReporterEv → List LocationRow
  | [] => []
  | .tripUpdate p _ :: evs => reporterRun userId tripId (mergeTrip t p) evs
  | .locationFix loc :: evs =>
    (if isInProgress t userId then [sendLocationUpdateV2 tripId userId loc] else []) ++
      reporterRun userId tripId t evs

/-! ### Permission negotiation -/

/-- An OS permission request actually issued to the platform. -/
inductive OsReq where
  | foreground
  | background
  deriving DecidableEq, Repr

/-- OS permission requests issued by the permission effect of the FIRST
`useGPSTracking` version (`useGPSTracking.js` lines 14-52): request
foreground; if granted and a trip is being tracked, immediately request
background.  This version has no disclosure state at all, so the
negotiator's `hasAcceptedDisclosure` flag (first argument) is never
consulted. -/
def permissionEffectV1 (hasAcceptedDisclosure isTracking fgGranted : Bool) : List OsReq :=
  OsReq.foreground ::
    (if fgGranted && isTracking then [OsReq.background] else [])

/-- Result of `requestBackgroundPermission` in the second hook version:
the OS requests issued, whether `needsDisclosure` was raised, and the
returned boolean. -/
structure BgReqResult where
  osCalls : List OsReq
  needsDisclosureSet : Bool
  value : Bool
  deriving DecidableEq, Repr

/-- `requestBackgroundPermission`, second hook version
(`useGPSTracking.js` lines 211-254): without accepted disclosure it only
raises `needsDisclosure`; otherwise it issues the one OS background
request and reports the grant outcome. -/
def requestBackgroundPermission (hasAcceptedDisclosure grant : Bool) : BgReqResult :=
  if hasAcceptedDisclosure then
    { osCalls := [OsReq.background], needsDisclosureSet := false, value := grant }
  else
    { osCalls := [], needsDisclosureSet := true, value := false }

/-- The tracking-start permission effect of the second hook version
(`useGPSTracking.js` lines 303-311): when tracking begins with foreground
granted but background missing, route through
`requestBackgroundPermission` if disclosure is accepted, else raise the
disclosure modal. -/
def trackingPermissionEffect (isTracking fg bg hasAcceptedDisclosure grant : Bool) : List OsReq :=
  if isTracking && fg && !bg then
    if hasAcceptedDisclosure then
      (requestBackgroundPermission hasAcceptedDisclosure grant).osCalls
    else []
  else []

/-! ### Single-flight completion -/

/-- UI state around the Complete Trip button: the `actionLoading` busy
flag and the in-flight write (carrying the `completed_at` instant taken
at invocation). -/
structure CompleteUI where
  actionLoading : Bool
  inFlight : Option Nat
  deriving DecidableEq, Repr

/-- An event at the Complete Trip button: a tap (at some instant) or the
resolution of the in-flight write. -/
inductive CompleteEv where
  | press (now : Nat)
  | resolve
  deriving DecidableEq, Repr

/-- One event step: a tap on the disabled button (`disabled={actionLoading}`,
`part_003` lines 713-728) is ignored; an enabled tap sets the busy flag
and launches the write with the current instant (`completeTrip`, lines
367-396); resolution lands the write at the store and clears the flag
(`finally` block).  Returns the `completed_at` values written. -/
def completeStep (s : CompleteUI) : CompleteEv → CompleteUI × List Nat
  | .press now =>
    if s.actionLoading then (s, [])
    else ({ actionLoading := true, inFlight := some now }, [])
  | .resolve =>
    match s.inFlight with
    | some ts => ({ actionLoading := false, inFlight := none }, [ts])
    | none => (s, [])

/-- All `completed_at` writes reaching the store along a trace of events. -/
def completeRun (s : CompleteUI) : List CompleteEv → List Nat
  | [] => []
  | e :: es =>
    let r := completeStep s e
    r.2 ++ completeRun r.1 es

/-! ## Theorems -/

/-- Claim C2: for a trip whose `assigned_driver_id` is the driver, whose
`driver_id` is unset and whose `driver_acceptance_status` is
`assigned_waiting` or unset (the `canAccept` gate), a successful
`acceptTrip` sets `driver_id` to the driver, sets
`driver_acceptance_status` to `accepted`, and fires exactly one
dispatcher notification. -/
theorem acceptTrip_correct (t : Trip) (phase u : String) (now : Nat)
    (h : canAccept t u = true) :
    (acceptTrip t phase u now .ok).trip.driver_id = some u ∧
    (acceptTrip t phase u now .ok).trip.driver_acceptance_status = some "accepted" ∧
    (acceptTrip t phase u now .ok).notifications = ["driver_accepted"] ∧
    (acceptTrip t phase u now .ok).notifications.length = 1 := by
  refine ⟨rfl, rfl, rfl, rfl⟩

/-- Witness for C2: the scenario of §8.5 of the spec, with driver `D1`
assigned on an upcoming trip. -/
theorem acceptTrip_correct_witness :
    canAccept ⟨"upcoming", none, some "D1", some "assigned_waiting", none,
      none, none, none, 0⟩ "D1" = true ∧
    ((acceptTrip ⟨"upcoming", none, some "D1", some "assigned_waiting", none,
        none, none, none, 0⟩ "waiting" "D1" 7 .ok).trip.driver_id = some "D1" ∧
      (acceptTrip ⟨"upcoming", none, some "D1", some "assigned_waiting", none,
        none, none, none, 0⟩ "waiting" "D1" 7 .ok).trip.driver_acceptance_status =
        some "accepted" ∧
      (acceptTrip ⟨"upcoming", none, some "D1", some "assigned_waiting", none,
        none, none, none, 0⟩ "waiting" "D1" 7 .ok).notifications = ["driver_accepted"] ∧
      (acceptTrip ⟨"upcoming", none, some "D1", some "assigned_waiting", none,
        none, none, none, 0⟩ "waiting" "D1" 7 .ok).notifications.length = 1) :=
  ⟨by decide, acceptTrip_correct _ "waiting" "D1" 7 (by decide)⟩

/-- Claim C3: from local phase `en_route_to_pickup`, a successful
`arrivedAtPickup` sets the phase to `arrived_at_pickup` (both the stored
column and local state) and stamps `pickup_arrival_time` with an instant
within [call time, call time + 1]. -/
theorem arrivedAtPickup_correct (t : Trip) (phase u : String) (now : Nat)
    (h : phase = "en_route_to_pickup") :
    (arrivedAtPickup t phase u now .ok).trip.trip_phase = some "arrived_at_pickup" ∧
    (arrivedAtPickup t phase u now .ok).localPhase = "arrived_at_pickup" ∧
    ∃ ts, (arrivedAtPickup t phase u now .ok).trip.pickup_arrival_time = some ts ∧
      now ≤ ts ∧ ts ≤ now + 1 :=
  ⟨rfl, rfl, now, rfl, Nat.le_refl now, Nat.le_succ now⟩

/-- Witness for C3 at a concrete trip and call instant. -/
theorem arrivedAtPickup_correct_witness :
    (arrivedAtPickup ⟨"in_progress", some "D1", some "D1", some "started",
        some "en_route_to_pickup", none, none, none, 3⟩ "en_route_to_pickup" "D1" 42
        .ok).trip.trip_phase = some "arrived_at_pickup" ∧
    (arrivedAtPickup ⟨"in_progress", some "D1", some "D1", some "started",
        some "en_route_to_pickup", none, none, none, 3⟩ "en_route_to_pickup" "D1" 42
        .ok).localPhase = "arrived_at_pickup" ∧
    ∃ ts, (arrivedAtPickup ⟨"in_progress", some "D1", some "D1", some "started",
        some "en_route_to_pickup", none, none, none, 3⟩ "en_route_to_pickup" "D1" 42
        .ok).trip.pickup_arrival_time = some ts ∧ 42 ≤ ts ∧ ts ≤ 42 + 1 :=
  arrivedAtPickup_correct _ _ "D1" 42 rfl

/-- Counterexample to claim C5 as stated: in the first version of
`sendLocationUpdate` a provided heading of `0` is persisted through
`|| null` and therefore arrives as `null`, not as `0`. -/
theorem sendLocationUpdateV1_zero_heading_lost :
    (sendLocationUpdateV1 "T1" "D1" ⟨⟨40, -83, some 0, some 0⟩, 100⟩).heading = none ∧
    (⟨⟨40, -83, some 0, some 0⟩, 100⟩ : LocationSample).coords.heading = some 0 ∧
    (none : Option ℚ) ≠ some 0 := by
  refine ⟨rfl, rfl, by decide⟩

/-- Claim C5, amended: in the current reporter (second version,
`?? null`) latitude, longitude, timestamp, heading and speed are
persisted exactly as sampled — absence stays `null` and a provided `0`
stays `0`; in the first version (`|| null`) latitude, longitude and
timestamp are persisted identically, but a falsy heading or speed (`0` as
well as absence) is coerced to `null`. -/
theorem sendLocationUpdate_roundtrip (tid did : String) (loc : LocationSample) :
    ((sendLocationUpdateV2 tid did loc).latitude = loc.coords.latitude ∧
      (sendLocationUpdateV2 tid did loc).longitude = loc.coords.longitude ∧
      (sendLocationUpdateV2 tid did loc).timestamp = loc.timestamp ∧
      (sendLocationUpdateV2 tid did loc).heading = loc.coords.heading ∧
      (sendLocationUpdateV2 tid did loc).speed = loc.coords.speed) ∧
    ((sendLocationUpdateV1 tid did loc).latitude = loc.coords.latitude ∧
      (sendLocationUpdateV1 tid did loc).longitude = loc.coords.longitude ∧
      (sendLocationUpdateV1 tid did loc).timestamp = loc.timestamp ∧
      (sendLocationUpdateV1 tid did loc).heading = jsOrNull loc.coords.heading ∧
      (sendLocationUpdateV1 tid did loc).speed = jsOrNull loc.coords.speed) :=
  ⟨⟨rfl, rfl, rfl, rfl, rfl⟩, ⟨rfl, rfl, rfl, rfl, rfl⟩⟩

/-- Claim C7: with the busy flag initially clear, a tap on Complete Trip
followed by a second tap while the first write is still in flight and
then the resolution of that write produces exactly one `completed_at`
write — the one carrying the first tap's instant. -/
theorem completeTrip_single_flight (t1 t2 : Nat) :
    completeRun ⟨false, none⟩ [.press t1, .press t2, .resolve] = [t1] := rfl

/-- Claim C8: every phase-transition handler, when its external write
fails, leaves the trip record and the local phase untouched, fires no
notification, surfaces the failure as an error value (the alert message),
and attempts exactly one write (no retry). -/
theorem op_failure_no_mutation (k : OpKind) (t : Trip) (phase u : String) (now : Nat)
    (m : String) :
    runOp k t phase u now (.err m) =
      { trip := t, localPhase := phase, notifications := [], errorAlert := some m,
        writeAttempts := 1 } := by
  cases k <;> rfl

/-- Counterexample to claim C9 as stated: an update event whose
`trip_phase` is present and non-null but empty (the column is loosely
typed) is NOT adopted by the subscription handler — JS truthiness also
rejects the empty string — while the claimed fold would adopt it. -/
theorem handleUpdate_empty_phase_kept :
    (handleUpdate ⟨"in_progress", some "D1", some "D1", some "started",
        some "en_route_to_pickup", none, none, none, 0⟩ "en_route_to_pickup"
        { trip_phase := some (some "") }).2 = "en_route_to_pickup" ∧
    specPhaseFold "en_route_to_pickup" { trip_phase := some (some "") } = "" ∧
    ({ trip_phase := some (some "") } : TripPatch).trip_phase = some (some "") ∧
    ("en_route_to_pickup" : String) ≠ "" := by
  refine ⟨rfl, rfl, rfl, by decide⟩

/-- Claim C9, amended: for every inbound update event, the new local
record is the shallow merge of the previous record with the snapshot, and
the local phase is taken from the event exactly when the event's
`trip_phase` is present, non-null and non-empty (JS truthiness); for
events whose `trip_phase`, if present and non-null, is non-empty, this
coincides with the spec's fold. -/
theorem handleUpdate_matches_spec (prev : Trip) (phase : String) (p : TripPatch)
    (h : ∀ s, p.trip_phase = some (some s) → s ≠ "") :
    handleUpdate prev phase p = (mergeTrip prev p, specPhaseFold phase p) := by
  unfold handleUpdate specPhaseFold
  cases hp : p.trip_phase with
  | none => rfl
  | some v =>
    cases v with
    | none => rfl
    | some s =>
      have hs : s ≠ "" := h s hp
      simp [hs]

/-- Witness for the amended C9 at a concrete dispatcher-side update. -/
theorem handleUpdate_matches_spec_witness :
    handleUpdate ⟨"in_progress", some "D1", some "D1", some "started",
        some "en_route_to_pickup", none, none, none, 0⟩ "en_route_to_pickup"
        { trip_phase := some (some "arrived_at_pickup"), updated_at := some 9 } =
      (mergeTrip ⟨"in_progress", some "D1", some "D1", some "started",
          some "en_route_to_pickup", none, none, none, 0⟩
          { trip_phase := some (some "arrived_at_pickup"), updated_at := some 9 },
        specPhaseFold "en_route_to_pickup"
          { trip_phase := some (some "arrived_at_pickup"), updated_at := some 9 }) :=
  handleUpdate_matches_spec _ _ _ (by intro s hs; simp at hs; rw [← hs]; decide)

/-- Claim C10: when the fetched record carries no `trip_phase` value, the
local phase (initially `waiting`) is set to `en_route_to_pickup` if the
trip is `in_progress`, and stays `waiting` otherwise. -/
theorem fetchPhaseInit_default (t : Trip) (h : t.trip_phase = none) :
    (t.status = "in_progress" → fetchPhaseInit initialTripPhase t = "en_route_to_pickup") ∧
    (t.status ≠ "in_progress" → fetchPhaseInit initialTripPhase t = "waiting") := by
  unfold fetchPhaseInit initialTripPhase
  rw [h]
  constructor
  · intro hs; simp [hs]
  · intro hs; simp [hs]

/-- Witness for C10: an in-progress trip with the phase column unset. -/
theorem fetchPhaseInit_default_witness :
    fetchPhaseInit initialTripPhase ⟨"in_progress", some "D1", some "D1", some "started",
        none, none, none, none, 0⟩ = "en_route_to_pickup" :=
  (fetchPhaseInit_default _ rfl).1 rfl

/-- Counterexample to claim C4 as stated: the first `useGPSTracking`
version issues the OS background-permission request whenever foreground
is granted and a trip is tracked; it has no disclosure state, so the
request is issued while `hasAcceptedDisclosure` is false. -/
theorem permissionEffectV1_background_without_disclosure :
    OsReq.background ∈ permissionEffectV1 false true true := by decide

/-- Claim C4, amended: in the disclosure-gated second hook version, every
path that issues the OS background-permission request —
`requestBackgroundPermission` itself and the tracking-start effect —
requires `hasAcceptedDisclosure = true` at the time of the call; the
legacy first version requests background without consulting any
disclosure flag. -/
theorem bg_request_requires_disclosure (d grant isTracking fg bg : Bool)
    (h : OsReq.background ∈ (requestBackgroundPermission d grant).osCalls ∨
      OsReq.background ∈ trackingPermissionEffect isTracking fg bg d grant) :
    d = true := by
  cases d with
  | true => rfl
  | false =>
    rcases h with h | h
    · simp [requestBackgroundPermission] at h
    · simp [trackingPermissionEffect] at h

/-- Witness for the amended C4: with disclosure accepted, the background
request is issued and the theorem applies. -/
theorem bg_request_requires_disclosure_witness :
    OsReq.background ∈ (requestBackgroundPermission true true).osCalls ∧ true = true :=
  ⟨by decide, bg_request_requires_disclosure true true true true false (Or.inl (by decide))⟩

-- Splitting a reporter trace at any point: the rows of the suffix are
-- produced against the trip record obtained by folding the prefix.
theorem reporterRun_append (u tid : String) (t : Trip) (l1 l2 : List ReporterEv) :
    reporterRun u tid t (l1 ++ l2) =
      reporterRun u tid t l1 ++ reporterRun u tid (tripAfter t l1) l2 := by
  induction l1 generalizing t with
  | nil => rfl
  | cons e l1 ih =>
    cases e with
    | tripUpdate p time => simp [reporterRun, tripAfter, ih]
    | locationFix loc => simp [reporterRun, tripAfter, ih]

-- Every persisted row's timestamp comes from some location fix of the trace.
theorem reporterRun_timestamps (u tid : String) (t : Trip) (evs : List ReporterEv) :
    ∀ r ∈ reporterRun u tid t evs,
      ∃ loc, ReporterEv.locationFix loc ∈ evs ∧ r.timestamp = loc.timestamp := by
  induction evs generalizing t with
  | nil => intro r hr; cases hr
  | cons e evs ih =>
    cases e with
    | tripUpdate p time =>
      intro r hr
      obtain ⟨loc, hl, he⟩ := ih (mergeTrip t p) r hr
      exact ⟨loc, List.mem_cons_of_mem _ hl, he⟩
    | locationFix loc =>
      intro r hr
      rw [reporterRun] at hr
      rcases List.mem_append.1 hr with h | h
      · by_cases htr : isInProgress t u = true
        · rw [if_pos htr] at h
          simp at h
          exact ⟨loc, List.mem_cons_self _ _, by rw [h]; rfl⟩
        · rw [if_neg htr] at h
          cases h
      · obtain ⟨loc', hl, he⟩ := ih t r h
        exact ⟨loc', List.mem_cons_of_mem _ hl, he⟩

-- Once the locally seen trip is completed, and no later update moves it
-- out of `completed`, the reporter records nothing.
theorem reporterRun_completed (u tid : String) (t : Trip) (evs : List ReporterEv)
    (ht : t.status = "completed")
    (hevs : ∀ p time, ReporterEv.tripUpdate p time ∈ evs →
      p.status = none ∨ p.status = some "completed") :
    reporterRun u tid t evs = [] := by
  induction evs generalizing t with
  | nil => rfl
  | cons e evs ih =>
    cases e with
    | tripUpdate p time =>
      rw [reporterRun]
      refine ih (mergeTrip t p) ?_ ?_
      · rcases hevs p time (List.mem_cons_self _ _) with h | h <;>
          simp [mergeTrip, h, ht]
      · intro q tq hq
        exact hevs q tq (List.mem_cons_of_mem _ hq)
    | locationFix loc =>
      rw [reporterRun]
      have htr : isInProgress t u = false := by
        simp [isInProgress, ht]
      rw [htr]
      simp only [Bool.false_eq_true, if_false, List.nil_append]
      exact ih t ht fun q tq hq => hevs q tq (List.mem_cons_of_mem _ hq)

/-- Claim C6: along any trace of subscription updates and location fixes
in which the trip transitions to `completed` at instant `tc` (and is not
subsequently moved out of `completed`), the reporter stops within one
evaluation cycle: `completed_at` is `tc` after the transition, and every
persisted location row carries a timestamp at most `tc` — no sample is
recorded after the fixes that preceded the completion. -/
theorem reporter_stops_on_completion (u tid : String) (t : Trip)
    (pre post : List ReporterEv) (p : TripPatch) (tc : Nat)
    (hstat : p.status = some "completed")
    (hc : p.completed_at = some (some tc))
    (hpre : ∀ loc, ReporterEv.locationFix loc ∈ pre → loc.timestamp ≤ tc)
    (hpost : ∀ q time, ReporterEv.tripUpdate q time ∈ post →
      q.status = none ∨ q.status = some "completed") :
    (mergeTrip (tripAfter t pre) p).completed_at = some tc ∧
    ∀ r ∈ reporterRun u tid t (pre ++ ReporterEv.tripUpdate p tc :: post),
      r.timestamp ≤ tc := by
  constructor
  · simp [mergeTrip, hc]
  · intro r hr
    rw [reporterRun_append] at hr
    rcases List.mem_append.1 hr with h | h
    · obtain ⟨loc, hl, he⟩ := reporterRun_timestamps u tid t pre r h
      exact he ▸ hpre loc hl
    · rw [reporterRun] at h
      rw [reporterRun_completed u tid _ post (by simp [mergeTrip, hstat]) hpost] at h
      cases h

/-- Witness for C6: an in-progress trip, one fix before completion, one
fix (later than `completed_at`) after it; the recorded rows all predate
`completed_at`. -/
theorem reporter_stops_on_completion_witness :
    (mergeTrip (tripAfter ⟨"in_progress", some "D1", some "D1", some "started",
        some "en_route_to_destination", none, none, none, 0⟩
        [ReporterEv.locationFix ⟨⟨1, 2, none, none⟩, 3⟩])
        { status := some "completed", driver_acceptance_status := some (some "completed"),
          trip_phase := some (some "completed"), completed_at := some (some 5),
          updated_at := some 5 }).completed_at = some 5 ∧
    ∀ r ∈ reporterRun "D1" "T1" ⟨"in_progress", some "D1", some "D1", some "started",
        some "en_route_to_destination", none, none, none, 0⟩
        ([ReporterEv.locationFix ⟨⟨1, 2, none, none⟩, 3⟩] ++
          ReporterEv.tripUpdate
            { status := some "completed", driver_acceptance_status := some (some "completed"),
              trip_phase := some (some "completed"), completed_at := some (some 5),
              updated_at := some 5 } 5 ::
          [ReporterEv.locationFix ⟨⟨1, 2, none, none⟩, 9⟩]),
      r.timestamp ≤ 5 :=
  reporter_stops_on_completion "D1" "T1" _ _ _ _ 5 rfl rfl
    (by intro loc hl; simp at hl; rw [hl]; decide)
    (by intro q tq hq; simp at hq)

/-- Counterexample to claim C1 as stated: after the gated controller
actions start → arrived → startRide bring the phase to
`en_route_to_destination` (rank 3), a single RealtimeSync-applied update
whose snapshot carries `trip_phase = "waiting"` moves the phase back to
`waiting` (rank 0) — an operation of the claimed set sets the phase
backward. -/
theorem tripRun_sync_backwards :
    (tripRun "D1" ⟨⟨"upcoming", some "D1", some "D1", some "accepted", none,
        none, none, none, 0⟩, "waiting"⟩
      [.ctrl (.start 1 .ok), .ctrl (.arrived 2 .ok),
        .ctrl (.rideStart 3 .ok)]).tripPhase = "en_route_to_destination" ∧
    (tripRun "D1" ⟨⟨"upcoming", some "D1", some "D1", some "accepted", none,
        none, none, none, 0⟩, "waiting"⟩
      [.ctrl (.start 1 .ok), .ctrl (.arrived 2 .ok), .ctrl (.rideStart 3 .ok),
        .sync { trip_phase := some (some "waiting") }]).tripPhase = "waiting" ∧
    phaseRank "waiting" < phaseRank "en_route_to_destination" := by
  refine ⟨by decide, by decide, by decide⟩

-- Truthiness of an optional string column, unfolded.
theorem truthy_eq_false_iff {o : Option String} :
    truthy o = false ↔ o = none ∨ o = some "" := by
  cases o with
  | none => simp [truthy]
  | some s => simp [truthy]

-- The five possible values of a known phase.
theorem knownPhase_cases {p : String} (h : knownPhase p = true) :
    p = "waiting" ∨ p = "en_route_to_pickup" ∨ p = "arrived_at_pickup" ∨
    p = "en_route_to_destination" ∨ p = "completed" := by
  simp [knownPhase] at h
  tauto

-- Evaluating the fetch-time phase initialisation in its three cases.
theorem fetchPhaseInit_none {t : Trip} (h : t.trip_phase = none) (ph : String) :
    fetchPhaseInit ph t = if t.status = "in_progress" then "en_route_to_pickup" else ph := by
  unfold fetchPhaseInit
  rw [h]
  by_cases hs : t.status = "in_progress" <;> simp [hs]

theorem fetchPhaseInit_empty {t : Trip} (h : t.trip_phase = some "") (ph : String) :
    fetchPhaseInit ph t = if t.status = "in_progress" then "en_route_to_pickup" else ph := by
  unfold fetchPhaseInit
  rw [h]
  by_cases hs : t.status = "in_progress" <;> simp [hs]

theorem fetchPhaseInit_truthy {t : Trip} {tp : String} (h : t.trip_phase = some tp)
    (hne : tp ≠ "") (ph : String) : fetchPhaseInit ph t = tp := by
  unfold fetchPhaseInit
  rw [h]
  simp [hne]

-- A successful accept preserves the invariant and never lowers the phase.
theorem inv_accept_ok (u : String) (hu : u ≠ "") (t : Trip) (ph : String) (now : Nat)
    (hInv : Inv t ph) (hg : canAccept t u = true) :
    Inv (acceptTrip t ph u now .ok).trip (acceptTrip t ph u now .ok).localPhase ∧
    phaseRank ph ≤ phaseRank (acceptTrip t ph u now .ok).localPhase := by
  obtain ⟨h1, h2, h3, h4, h5⟩ := hInv
  simp only [canAccept, Bool.and_eq_true, Bool.or_eq_true, beq_iff_eq,
    Bool.not_eq_true'] at hg
  obtain ⟨⟨ha1, ha2⟩, ha3⟩ := hg
  have hdas : t.driver_acceptance_status ≠ some "completed" := by
    intro hc
    rcases ha3 with h | h
    · rw [hc] at h; simp at h
    · rw [hc] at h; simp [truthy] at h
  have hrank : phaseRank ph ≤ 1 := by
    by_cases h2r : 2 ≤ phaseRank ph
    · have hd := (h5 h2r).1
      rw [ha2] at hd
      simp at hd
    · omega
  set t' := (acceptTrip t ph u now .ok).trip with ht'
  have e1 : t'.trip_phase = t.trip_phase := rfl
  have e2 : t'.status = t.status := rfl
  have e3 : t'.driver_acceptance_status = some "accepted" := rfl
  have e4 : t'.driver_id = some u := rfl
  have e5 : (acceptTrip t ph u now .ok).localPhase = fetchPhaseInit ph t' := rfl
  rw [e5]
  rcases ht : t.trip_phase with _ | tp
  · -- column unset: fetch falls back on status
    have hf := fetchPhaseInit_none (t := t') (by rw [e1, ht]) ph
    rw [e2] at hf
    by_cases hst : t.status = "in_progress"
    · rw [if_pos hst] at hf
      rw [hf]
      refine ⟨⟨by decide, ?_, ?_, ?_, ?_⟩, ?_⟩
      · intro tp' htp'; rw [e1, ht] at htp'; cases htp'
      · intro tp' htp'; rw [e1, ht] at htp'; cases htp'
      · intro _
        exact Or.inr (Or.inl ⟨by rw [e1, ht]; rfl, by rw [e2]; exact hst, by decide⟩)
      · intro hcon; exact absurd hcon (by decide)
      · exact le_trans hrank (by decide)
    · rw [if_neg hst] at hf
      rw [hf]
      refine ⟨⟨h1, ?_, ?_, ?_, ?_⟩, le_refl _⟩
      · intro tp' htp'; rw [e1, ht] at htp'; cases htp'
      · intro tp' htp'; rw [e1, ht] at htp'; cases htp'
      · intro hr1
        rcases h4 hr1 with h | h | h
        · rw [ht] at h; cases h
        · exact absurd h.2.1 hst
        · exact absurd h hdas
      · intro hr2; omega
  · by_cases htp : tp = ""
    · -- column holds the empty string: same fallback as unset
      subst htp
      have hf := fetchPhaseInit_empty (t := t') (by rw [e1, ht]) ph
      rw [e2] at hf
      by_cases hst : t.status = "in_progress"
      · rw [if_pos hst] at hf
        rw [hf]
        refine ⟨⟨by decide, ?_, ?_, ?_, ?_⟩, ?_⟩
        · intro tp' htp'; rw [e1, ht] at htp'
          injection htp' with h
          exact Or.inl h.symm
        · intro tp' htp' hne
          rw [e1, ht] at htp'
          injection htp' with h
          exact absurd h.symm hne
        · intro _
          exact Or.inr (Or.inl ⟨by rw [e1, ht]; rfl, by rw [e2]; exact hst, by decide⟩)
        · intro hcon; exact absurd hcon (by decide)
        · exact le_trans hrank (by decide)
      · rw [if_neg hst] at hf
        rw [hf]
        refine ⟨⟨h1, ?_, ?_, ?_, ?_⟩, le_refl _⟩
        · intro tp' htp'; rw [e1, ht] at htp'
          injection htp' with h
          exact Or.inl h.symm
        · intro tp' htp' hne
          rw [e1, ht] at htp'
          injection htp' with h
          exact absurd h.symm hne
        · intro hr1
          rcases h4 hr1 with h | h | h
          · rw [ht] at h
            injection h with h
            rw [← h] at h1
            exact absurd h1 (by decide)
          · exact absurd h.2.1 hst
          · exact absurd h hdas
        · intro hr2; omega
    · -- column holds a truthy phase: fetch adopts it
      have hf := fetchPhaseInit_truthy (t := t') (by rw [e1, ht]) htp ph
      rw [hf]
      have hknown : knownPhase tp = true := by
        rcases h2 tp ht with h | h
        · exact absurd h htp
        · exact h
      have hmono : phaseRank ph ≤ phaseRank tp := by
        by_cases hr1 : 1 ≤ phaseRank ph
        · rcases h4 hr1 with h | h | h
          · rw [ht] at h; injection h with h; rw [h]
          · rw [ht] at h
            simp [truthy, htp] at h
          · exact absurd h hdas
        · omega
      refine ⟨⟨hknown, ?_, ?_, ?_, ?_⟩, hmono⟩
      · intro tp' htp'; rw [e1, ht] at htp'
        injection htp' with h
        exact h ▸ Or.inr hknown
      · intro tp' htp' hne hr1
        rw [e1, ht] at htp'
        injection htp' with h
        subst h
        rcases h3 tp ht hne hr1 with h | h
        · exact Or.inl (by rw [e2]; exact h)
        · exact absurd h hdas
      · intro _
        exact Or.inl (by rw [e1, ht])
      · intro hr2
        have hst : t.status = "in_progress" := by
          rcases h3 tp ht htp (by omega) with h | h
          · exact h
          · exact absurd h hdas
        exact ⟨by rw [e4]; simp [truthy, hu], Or.inl (by rw [e2]; exact hst)⟩

-- A successful start preserves the invariant and never lowers the phase.
theorem inv_start_ok (u : String) (hu : u ≠ "") (t : Trip) (ph : String) (now : Nat)
    (hInv : Inv t ph) (hg : canStart t u = true) :
    Inv (startTrip t ph u now .ok).trip (startTrip t ph u now .ok).localPhase ∧
    phaseRank ph ≤ phaseRank (startTrip t ph u now .ok).localPhase := by
  obtain ⟨h1, h2, h3, h4, h5⟩ := hInv
  simp only [canStart, Bool.and_eq_true, Bool.or_eq_true, beq_iff_eq,
    Bool.not_eq_true', beq_eq_false_iff_ne] at hg
  obtain ⟨⟨hb1, hb2⟩, hb3⟩ := hg
  have hdas : t.driver_acceptance_status ≠ some "completed" := by
    intro hc
    rcases hb2 with h | h
    · rw [hc] at h; simp at h
    · rw [hc] at h; simp [truthy] at h
  have hrank : phaseRank ph ≤ 1 := by
    by_cases h2r : 2 ≤ phaseRank ph
    · rcases (h5 h2r).2 with h | h
      · exact absurd h hb3
      · exact absurd h hdas
    · omega
  set t' := (startTrip t ph u now .ok).trip with ht'
  have e1 : t'.trip_phase = some "en_route_to_pickup" := rfl
  have e2 : t'.status = "in_progress" := rfl
  have e5 : (startTrip t ph u now .ok).localPhase = fetchPhaseInit "en_route_to_pickup" t' := rfl
  have hf := fetchPhaseInit_truthy (t := t') e1 (by decide) "en_route_to_pickup"
  rw [e5, hf]
  refine ⟨⟨by decide, ?_, ?_, ?_, ?_⟩, le_trans hrank (by decide)⟩
  · intro tp' htp'; rw [e1] at htp'
    injection htp' with h
    exact Or.inr (by rw [← h]; decide)
  · intro tp' htp' hne hr1
    exact Or.inl e2
  · intro _
    exact Or.inl e1
  · intro hcon; exact absurd hcon (by decide)

-- A successful arrived-at-pickup preserves the invariant and raises the
-- phase from rank 1 to rank 2.
theorem inv_arrived_ok (u : String) (hu : u ≠ "") (t : Trip) (ph : String) (now : Nat)
    (hInv : Inv t ph)
    (hg : (isInProgress t u && (ph == "en_route_to_pickup")) = true) :
    Inv (arrivedAtPickup t ph u now .ok).trip (arrivedAtPickup t ph u now .ok).localPhase ∧
    phaseRank ph ≤ phaseRank (arrivedAtPickup t ph u now .ok).localPhase := by
  simp only [isInProgress, Bool.and_eq_true, beq_iff_eq] at hg
  obtain ⟨⟨hc1, hc2⟩, hc3⟩ := hg
  set t' := (arrivedAtPickup t ph u now .ok).trip with ht'
  have e1 : t'.trip_phase = some "arrived_at_pickup" := rfl
  have e2 : t'.status = t.status := rfl
  have e4 : t'.driver_id = t.driver_id := rfl
  have e5 : (arrivedAtPickup t ph u now .ok).localPhase = "arrived_at_pickup" := rfl
  rw [e5]
  subst hc3
  refine ⟨⟨by decide, ?_, ?_, ?_, ?_⟩, by decide⟩
  · intro tp' htp'; rw [e1] at htp'
    injection htp' with h
    exact Or.inr (by rw [← h]; decide)
  · intro tp' htp' hne hr1
    exact Or.inl (by rw [e2]; exact hc1)
  · intro _
    exact Or.inl e1
  · intro _
    exact ⟨by rw [e4, hc2]; simp [truthy, hu], Or.inl (by rw [e2]; exact hc1)⟩

-- A successful start-ride preserves the invariant and raises the phase
-- from rank 2 to rank 3.
theorem inv_rideStart_ok (u : String) (hu : u ≠ "") (t : Trip) (ph : String) (now : Nat)
    (hInv : Inv t ph)
    (hg : (isInProgress t u && (ph == "arrived_at_pickup")) = true) :
    Inv (startRide t ph u now .ok).trip (startRide t ph u now .ok).localPhase ∧
    phaseRank ph ≤ phaseRank (startRide t ph u now .ok).localPhase := by
  simp only [isInProgress, Bool.and_eq_true, beq_iff_eq] at hg
  obtain ⟨⟨hc1, hc2⟩, hc3⟩ := hg
  set t' := (startRide t ph u now .ok).trip with ht'
  have e1 : t'.trip_phase = some "en_route_to_destination" := rfl
  have e2 : t'.status = t.status := rfl
  have e4 : t'.driver_id = t.driver_id := rfl
  have e5 : (startRide t ph u now .ok).localPhase = "en_route_to_destination" := rfl
  rw [e5]
  subst hc3
  refine ⟨⟨by decide, ?_, ?_, ?_, ?_⟩, by decide⟩
  · intro tp' htp'; rw [e1] at htp'
    injection htp' with h
    exact Or.inr (by rw [← h]; decide)
  · intro tp' htp' hne hr1
    exact Or.inl (by rw [e2]; exact hc1)
  · intro _
    exact Or.inl e1
  · intro _
    exact ⟨by rw [e4, hc2]; simp [truthy, hu], Or.inl (by rw [e2]; exact hc1)⟩

-- A successful completion preserves the invariant and leaves the local
-- phase untouched (the screen navigates away).
theorem inv_complete_ok (u : String) (hu : u ≠ "") (t : Trip) (ph : String) (now : Nat)
    (hInv : Inv t ph)
    (hg : (isInProgress t u && (ph == "en_route_to_destination")) = true) :
    Inv (completeTrip t ph u now .ok).trip (completeTrip t ph u now .ok).localPhase ∧
    phaseRank ph ≤ phaseRank (completeTrip t ph u now .ok).localPhase := by
  obtain ⟨h1, h2, h3, h4, h5⟩ := hInv
  simp only [isInProgress, Bool.and_eq_true, beq_iff_eq] at hg
  obtain ⟨⟨hc1, hc2⟩, hc3⟩ := hg
  set t' := (completeTrip t ph u now .ok).trip with ht'
  have e1 : t'.trip_phase = some "completed" := rfl
  have e3 : t'.driver_acceptance_status = some "completed" := rfl
  have e4 : t'.driver_id = t.driver_id := rfl
  have e5 : (completeTrip t ph u now .ok).localPhase = ph := rfl
  rw [e5]
  refine ⟨⟨h1, ?_, ?_, ?_, ?_⟩, le_refl _⟩
  · intro tp' htp'; rw [e1] at htp'
    injection htp' with h
    exact Or.inr (by rw [← h]; decide)
  · intro tp' htp' hne hr1
    exact Or.inr e3
  · intro _
    exact Or.inr (Or.inr e3)
  · intro _
    exact ⟨by rw [e4, hc2]; simp [truthy, hu], Or.inr e3⟩

-- One gated controller step preserves the invariant and never lowers the
-- phase.
theorem inv_ctrl_step (u : String) (hu : u ≠ "") (s : ScreenState) (c : CtrlStep)
    (hInv : Inv s.trip s.tripPhase) :
    Inv (if ctrlGuard u s c then ctrlApply u s c else s).trip
      (if ctrlGuard u s c then ctrlApply u s c else s).tripPhase ∧
    phaseRank s.tripPhase ≤
      phaseRank (if ctrlGuard u s c then ctrlApply u s c else s).tripPhase := by
  by_cases hg : ctrlGuard u s c = true
  · rw [if_pos hg]
    cases c with
    | accept now w =>
      cases w with
      | ok => exact inv_accept_ok u hu s.trip s.tripPhase now hInv hg
      | err m => exact ⟨hInv, le_refl _⟩
    | start now w =>
      cases w with
      | ok => exact inv_start_ok u hu s.trip s.tripPhase now hInv hg
      | err m => exact ⟨hInv, le_refl _⟩
    | arrived now w =>
      cases w with
      | ok => exact inv_arrived_ok u hu s.trip s.tripPhase now hInv hg
      | err m => exact ⟨hInv, le_refl _⟩
    | rideStart now w =>
      cases w with
      | ok => exact inv_rideStart_ok u hu s.trip s.tripPhase now hInv hg
      | err m => exact ⟨hInv, le_refl _⟩
    | complete now w =>
      cases w with
      | ok => exact inv_complete_ok u hu s.trip s.tripPhase now hInv hg
      | err m => exact ⟨hInv, le_refl _⟩
  · rw [if_neg hg]
    exact ⟨hInv, le_refl _⟩

/-- Claim C1, amended: for every sequence of gated `TripPhaseController`
actions (accept, start, arrivedAtPickup, startRide, complete) from a
well-formed screen state, the local `trip_phase` only ever moves forward
through the fixed ordering waiting < en_route_to_pickup <
arrived_at_pickup < en_route_to_destination < completed, and
well-formedness is preserved; RealtimeSync-applied updates, by contrast,
can move the phase backward (see the counterexample). -/
theorem ctrlRun_phase_monotone (u : String) (hu : u ≠ "") (s : ScreenState)
    (hInv : Inv s.trip s.tripPhase) (cs : List CtrlStep) :
    phaseRank s.tripPhase ≤ phaseRank (ctrlRun u s cs).tripPhase ∧
    Inv (ctrlRun u s cs).trip (ctrlRun u s cs).tripPhase := by
  induction cs generalizing s with
  | nil => exact ⟨le_refl _, hInv⟩
  | cons c cs ih =>
    rw [ctrlRun]
    obtain ⟨hInv', hmono⟩ := inv_ctrl_step u hu s c hInv
    obtain ⟨hm2, hi2⟩ := ih _ hInv'
    exact ⟨le_trans hmono hm2, hi2⟩

/-- Witness for the amended C1: a freshly assigned trip driven through
start, arrived, startRide and complete, with a failed write interleaved. -/
theorem ctrlRun_phase_monotone_witness :
    phaseRank "waiting" ≤
      phaseRank (ctrlRun "D1" ⟨⟨"upcoming", some "D1", some "D1", some "accepted", none,
        none, none, none, 0⟩, "waiting"⟩
        [.start 1 .ok, .arrived 2 (.err "network"), .arrived 3 .ok, .rideStart 4 .ok,
          .complete 5 .ok]).tripPhase ∧
    Inv (ctrlRun "D1" ⟨⟨"upcoming", some "D1", some "D1", some "accepted", none,
        none, none, none, 0⟩, "waiting"⟩
        [.start 1 .ok, .arrived 2 (.err "network"), .arrived 3 .ok, .rideStart 4 .ok,
          .complete 5 .ok]).trip
      (ctrlRun "D1" ⟨⟨"upcoming", some "D1", some "D1", some "accepted", none,
        none, none, none, 0⟩, "waiting"⟩
        [.start 1 .ok, .arrived 2 (.err "network"), .arrived 3 .ok, .rideStart 4 .ok,
          .complete 5 .ok]).tripPhase :=
  ctrlRun_phase_monotone "D1" (by decide)
    ⟨⟨"upcoming", some "D1", some "D1", some "accepted", none, none, none, none, 0⟩,
      "waiting"⟩
    (by decide)
    [.start 1 .ok, .arrived 2 (.err "network"), .arrived 3 .ok, .rideStart 4 .ok,
      .complete 5 .ok]

end DriverMobile
